import Mathlib

/-!
Verification development for the PillSee backend (DigiMedic/PillSee).

The Python sources under `pillsee-backend/app` are shallowly embedded below:
pure functions become Lean functions, the mutable `MedicationState` TypedDict
threaded through the LangGraph workflow becomes explicit state passing, Python
exceptions become `Except String`, and the external services (OpenAI chat and
vision models, the Supabase vector store RPC) are abstracted as an `Env`
record of oracles, since the repository treats them as black boxes.

Python `float` values (confidence scores, similarity scores) are modelled as
rationals (`ℚ`); the properties proved about them (range invariants,
comparisons against the fixed thresholds 0.3/0.2/0.4/0.6/0.8) are insensitive
to binary rounding.  Python `str.lower`/`str.upper` are modelled by Lean's
ASCII `String.toLower`/`String.toUpper`; the fixed keyword lists compared
against are ASCII-lowercase-stable, and no proved property depends on the
case-folding of non-ASCII letters.  Exception messages carry the Python
exception text; the ASCII quote marks Python puts around attribute names are
omitted from the embedded messages.
-/

/-- Dynamically typed Python value, as far as the embedded code needs it:
strings, numbers (floats/ints as rationals), booleans, `None`, lists, plain
`dict`s (association lists preserving insertion order, as Python dicts do),
and pydantic model objects (`obj`), whose attribute access behaves unlike a
plain dict. -/
inductive PyVal where
  | str : String → PyVal
  | num : ℚ → PyVal
  | bool : Bool → PyVal
  | none : PyVal
  | listV : List PyVal → PyVal
  | dictV : List (String × PyVal) → PyVal
  | obj : List (String × PyVal) → PyVal

/-- A Python `dict` with string keys: association list in insertion order. -/
abbrev PyDict := List (String × PyVal)

/-- `d.get(k)` / `k in d`: first binding of `k`, if any. -/
def dictGet (d : PyDict) (k : String) : Option PyVal :=
  match d with
  | [] => Option.none
  | (k0, v0) :: rest => if k0 = k then some v0 else dictGet rest k

/-- `d[k] = v`: update the existing binding in place, else append (Python
dict assignment preserves insertion order). -/
def dictSet (d : PyDict) (k : String) (v : PyVal) : PyDict :=
  match d with
  | [] => [(k, v)]
  | (k0, v0) :: rest => if k0 = k then (k0, v) :: rest else (k0, v0) :: dictSet rest k v

/-- Python truthiness of a value (`if value:`). -/
def pyTruthy : PyVal → Bool
  | .str s => s ≠ ""
  | .num q => q ≠ 0
  | .bool b => b
  | .none => false
  | .listV l => !l.isEmpty
  | .dictV d => !d.isEmpty
  | .obj _ => true

/-- Truthiness of `d.get(k)` (absent key gives `None`, which is falsy). -/
def pyTruthyOpt : Option PyVal → Bool
  | Option.none => false
  | some v => pyTruthy v

/-- `value == "není viditelné"`: Python equality of a value against the
"not visible" placeholder string; only that exact string compares equal. -/
def isNotVisible : PyVal → Bool
  | .str s => s = "není viditelné"
  | _ => false

/-- Python `str.strip()`: drop leading and trailing whitespace (embedded
with Lean's whitespace set, which covers the space/tab/newline characters
appearing in this codebase). -/
def pyStrip (s : String) : String :=
  ⟨((s.data.dropWhile Char.isWhitespace).reverse.dropWhile Char.isWhitespace).reverse⟩

/-- Python `str.lower()` (ASCII case folding, see the header note). -/
def pyLower (s : String) : String := ⟨s.data.map Char.toLower⟩

/-- Python `str.upper()` (ASCII case folding, see the header note). -/
def pyUpper (s : String) : String := ⟨s.data.map Char.toUpper⟩

/-- Helper for the substring test: does `needle` occur as a prefix of any
suffix of the character list. -/
def containsAux (needle : List Char) : List Char → Bool
  | [] => needle.isEmpty
  | c :: rest => needle.isPrefixOf (c :: rest) || containsAux needle rest

/-- Python `needle in hay` for strings (substring test). -/
def strContains (hay needle : String) : Bool :=
  containsAux needle.toList hay.toList

/-- Attribute access `v.a`.  Plain dicts and other non-objects have no data
attributes, so access raises `AttributeError` (the message is Python's
`str(e)`, quote marks omitted); on a pydantic model object it reads the
field. -/
def pyAttr (v : PyVal) (a : String) : Except String PyVal :=
  match v with
  | .obj fields =>
      match dictGet fields a with
      | some x => .ok x
      | Option.none => .error ("object has no attribute " ++ a)
  | .dictV _ => .error ("dict object has no attribute " ++ a)
  | .none => .error ("NoneType object has no attribute " ++ a)
  | _ => .error ("object has no attribute " ++ a)

/-- `v.lower()`: only strings support it; embedded with ASCII case folding. -/
def pyLowerE (v : PyVal) : Except String String :=
  match v with
  | .str s => .ok (pyLower s)
  | .none => .error "NoneType object has no attribute lower"
  | _ => .error "object has no attribute lower"

/-- `f"{v}"` rendering, used only to assemble search-query text that is then
fed to the universally quantified retrieval oracle; container renderings are
placeholders and no proved property depends on them. -/
def pyFormat : PyVal → String
  | .str s => s
  | .num q => toString q
  | .bool b => if b then "True" else "False"
  | .none => "None"
  | .listV _ => "<list>"
  | .dictV _ => "<dict>"
  | .obj _ => "<object>"

/-- Python banker's rounding (`round`) of a rational to an integer:
half-way values go to the even neighbour, everything else to the nearest. -/
def roundHalfEven (q : ℚ) : ℤ :=
  if q - ⌊q⌋ = 1/2 then (if 2 ∣ ⌊q⌋ then ⌊q⌋ else ⌊q⌋ + 1) else round q

/-- Python `round(q, 2)`. -/
def round2 (q : ℚ) : ℚ := (roundHalfEven (q * 100) : ℚ) / 100

theorem roundHalfEven_bounds (x : ℚ) :
    ⌊x⌋ ≤ roundHalfEven x ∧ roundHalfEven x ≤ ⌈x⌉ := by
  unfold roundHalfEven
  split
  · rename_i h
    have hlt : (⌊x⌋ : ℚ) < x := by linarith
    have hceil : ⌊x⌋ + 1 ≤ ⌈x⌉ := by
      have h1 : (⌊x⌋ : ℚ) < (⌈x⌉ : ℚ) := lt_of_lt_of_le hlt (Int.le_ceil x)
      exact_mod_cast Int.add_one_le_of_lt (by exact_mod_cast h1)
    split
    · exact ⟨le_refl _, le_trans (by omega) hceil⟩
    · exact ⟨by omega, hceil⟩
  · constructor
    · rw [round_eq]
      exact Int.floor_le_floor (by linarith)
    · rw [round_eq]
      rw [Int.floor_le_iff]
      have := Int.le_ceil x
      linarith

theorem round2_bounds (x : ℚ) (h0 : 0 ≤ x) (h1 : x ≤ 1) :
    0 ≤ round2 x ∧ round2 x ≤ 1 := by
  obtain ⟨hl, hu⟩ := roundHalfEven_bounds (x * 100)
  have hfl : (0 : ℤ) ≤ ⌊x * 100⌋ := Int.floor_nonneg.mpr (by linarith)
  have hcu : ⌈x * 100⌉ ≤ (100 : ℤ) := Int.ceil_le.mpr (by push_cast; linarith)
  have h0' : (0 : ℤ) ≤ roundHalfEven (x * 100) := le_trans hfl hl
  have h1' : roundHalfEven (x * 100) ≤ (100 : ℤ) := le_trans hu hcu
  unfold round2
  constructor
  · positivity
  · rw [div_le_one (by norm_num)]
    exact_mod_cast h1'

/-!
## `app/models.py` — canonical record shape
-/

/-- `MedicationInfo` (models.py): the canonical medication record; every
field is optional text. -/
structure MedicationInfo where
  name : Option String := Option.none
  active_ingredient : Option String := Option.none
  strength : Option String := Option.none
  form : Option String := Option.none
  manufacturer : Option String := Option.none
  registration_number : Option String := Option.none
  atc_code : Option String := Option.none
  indication : Option String := Option.none
  contraindication : Option String := Option.none
  side_effects : Option String := Option.none
  interactions : Option String := Option.none
  dosage : Option String := Option.none
  price : Option String := Option.none
  prescription_required : Option String := Option.none

/-!
## `app/data/sukl_processor.py` — record normalizer and document builder

A pandas `DataFrame` is embedded as its column list plus rows of
(column, cell) pairs, where a cell of `Option.none` stands for pandas `NA`.
-/

/-- One table row: cells keyed by column name; `Option.none` is `NA`. -/
abbrev Row := List (String × Option String)

/-- Embedded pandas DataFrame. -/
structure DataFrame where
  cols : List String
  rows : List Row

/-- `row.get(col, '')`, with both an absent column and an `NA` cell giving a
value the extraction loop treats as missing. -/
def rowGet (r : Row) (c : String) : Option String :=
  match r.find? (fun p => p.1 == c) with
  | some p => p.2
  | Option.none => Option.none

/-- One cleaned cell of `_clean_czech_text`: `astype(str)` turns `NA` into
"nan", `.str.strip()` trims, and the literals "", "nan", "NaN", "null",
"NULL" are replaced by `NA`. -/
def cleanCell : Option String → Option String
  | Option.none => Option.none
  | some s =>
      let t := pyStrip s
      if t = "" ∨ t = "nan" ∨ t = "NaN" ∨ t = "null" ∨ t = "NULL" then Option.none
      else some t

/-- `_clean_czech_text`: trim and null-normalize every (object) cell, then
drop rows that are `NA` in every column. -/
def clean_czech_text (df : DataFrame) : DataFrame :=
  { cols := df.cols,
    rows := (df.rows.map (fun r => r.map (fun p => (p.1, cleanCell p.2)))).filter
      (fun r => r.any (fun p => p.2.isSome)) }

/-- `column_mapping` of `extract_medication_info`, verbatim from the source:
canonical field name to the ordered list of known column aliases. -/
def column_mapping : List (String × List String) :=
  [("name", ["NAZEV", "nazev", "název"]),
   ("active_ingredient", ["UCINNE_LATKY", "ucinne_latky", "účinné_látky"]),
   ("strength", ["SILA", "sila", "síla"]),
   ("form", ["LEKOVA_FORMA", "lekova_forma", "léková_forma", "FORMA"]),
   ("manufacturer", ["DRZITEL_ROZHODNUTI", "drzitel_rozhodnuti", "držitel_rozhodnutí", "DRZ"]),
   ("registration_number", ["REGISTRACNI_CISLO", "registracni_cislo", "registrační_číslo", "REG"]),
   ("atc_code", ["ATC_KOD", "atc_kod", "atc_kód", "ATC_WHO"]),
   ("indication", ["INDIKACE", "indikace"]),
   ("contraindication", ["KONTRAINDIKACE", "kontraindikace"]),
   ("side_effects", ["NEZADOUCI_UCINKY", "nezadouci_ucinky", "nežádoucí_účinky"]),
   ("interactions", ["INTERAKCE", "interakce"]),
   ("dosage", ["DAVKOVANI", "davkovani", "dávkování"]),
   ("price", ["CENA", "cena"]),
   ("prescription_required", ["PREDPISOVOST", "predpisovost", "VYDEJ"]),
   ("packaging", ["BALENI"]),
   ("route", ["CESTA"]),
   ("supplement", ["DOPLNEK"]),
   ("container", ["OBAL"]),
   ("code", ["KOD_SUKL"]),
   ("human", ["H"]),
   ("expiration", ["V_PLATDO"]),
   ("unlimited", ["NEOMEZ"]),
   ("ean", ["EAN"])]

/-- `actual_mapping`: for each canonical field, the first alias present among
the available columns, if any. -/
def actualMapping (available : List String) : List (String × String) :=
  column_mapping.filterMap (fun p =>
    match p.2.find? (fun col => available.contains col) with
    | some col => some (p.1, col)
    | Option.none => Option.none)

/-- `med_data.get(field)`: the per-row field value — the trimmed cell string
of the mapped column when it is non-`NA` and non-blank, else `None` (also
`None` when the field has no mapped column). -/
def medData (am : List (String × String)) (row : Row) (f : String) : Option String :=
  match am.find? (fun p => p.1 == f) with
  | some p =>
      match rowGet row p.2 with
      | some s => if pyStrip s = "" then Option.none else some (pyStrip s)
      | Option.none => Option.none
  | Option.none => Option.none

/-- `MedicationInfo(**med_data)`: pydantic v1 ignores the extra mapped keys
(packaging, route, …) that are not fields of the model, and the remaining
values are strings or `None`, so construction never raises. -/
def toMedicationInfo (md : String → Option String) : MedicationInfo :=
  { name := md "name"
    active_ingredient := md "active_ingredient"
    strength := md "strength"
    form := md "form"
    manufacturer := md "manufacturer"
    registration_number := md "registration_number"
    atc_code := md "atc_code"
    indication := md "indication"
    contraindication := md "contraindication"
    side_effects := md "side_effects"
    interactions := md "interactions"
    dosage := md "dosage"
    price := md "price"
    prescription_required := md "prescription_required" }

/-- `extract_medication_info`: build `med_data` for each row, skip the row
unless `name` is present and at least one of `active_ingredient` / `atc_code`
is present, and collect the surviving records in row order. -/
def extract_medication_info (df : DataFrame) : List MedicationInfo :=
  let am := actualMapping df.cols
  df.rows.foldl (fun acc row =>
    let md := medData am row
    if md "name" = Option.none then acc
    else if md "active_ingredient" = Option.none ∧ md "atc_code" = Option.none then acc
    else acc ++ [toMedicationInfo md]) []

/-- The validity condition C4 states: mapped `name` present, and
`active_ingredient` or `atc_code` present. -/
def rowKeptSpec (am : List (String × String)) (row : Row) : Bool :=
  (medData am row "name").isSome &&
    ((medData am row "active_ingredient").isSome || (medData am row "atc_code").isSome)

/-- An embedding document: flat text block plus metadata sidecar. -/
structure EmbeddingDoc where
  content : String
  metadata : PyDict

/-- Lift an optional string field into a `PyVal` (`None` stays `None`). -/
def optStrV : Option String → PyVal
  | some s => .str s
  | Option.none => .none

/-- Python truthiness of an optional string field (`if med.name:`). -/
def presentStr : Option String → Bool
  | some s => s ≠ ""
  | Option.none => false

/-- `create_embedding_texts`: one document per record; `content` is the
newline-join of one labelled line per truthy field in the source's fixed
order (with the ATC-code line replacing the active-ingredient line when the
latter is absent), `metadata` carries the five reference fields with nulls
passed through. -/
def create_embedding_texts (meds : List MedicationInfo) : List EmbeddingDoc :=
  meds.map (fun med =>
    let parts : List String :=
      (if presentStr med.name then ["Název: " ++ med.name.getD ""] else [])
      ++ (if presentStr med.active_ingredient then
            ["Účinná látka: " ++ med.active_ingredient.getD ""]
          else if presentStr med.atc_code then
            ["ATC kód: " ++ med.atc_code.getD ""]
          else [])
      ++ (if presentStr med.strength then ["Síla: " ++ med.strength.getD ""] else [])
      ++ (if presentStr med.form then ["Léková forma: " ++ med.form.getD ""] else [])
      ++ (if presentStr med.manufacturer then ["Výrobce: " ++ med.manufacturer.getD ""] else [])
      ++ (if presentStr med.indication then ["Indikace: " ++ med.indication.getD ""] else [])
      ++ (if presentStr med.contraindication then
            ["Kontraindikace: " ++ med.contraindication.getD ""] else [])
      ++ (if presentStr med.side_effects then
            ["Nežádoucí účinky: " ++ med.side_effects.getD ""] else [])
      ++ (if presentStr med.interactions then ["Interakce: " ++ med.interactions.getD ""] else [])
      ++ (if presentStr med.dosage then ["Dávkování: " ++ med.dosage.getD ""] else [])
    { content := String.intercalate "\n" parts,
      metadata := [("name", optStrV med.name),
                   ("active_ingredient", optStrV med.active_ingredient),
                   ("registration_number", optStrV med.registration_number),
                   ("atc_code", optStrV med.atc_code),
                   ("prescription_required", optStrV med.prescription_required)] })

/-- The content layout exactly as claim C8 words it: one "Label: value" line
per present field, newline-joined, in the fixed order name,
active_ingredient-or-atc_code, strength, form, manufacturer, indication,
contraindication, side_effects, interactions, dosage, absent fields
contributing no line, with an ATC-code line substituted when
active_ingredient is absent but atc_code present. -/
def contentPerClaim (med : MedicationInfo) : String :=
  String.intercalate "\n"
    ((if presentStr med.name then ["Název: " ++ med.name.getD ""] else [])
     ++ (if presentStr med.active_ingredient then
           ["Účinná látka: " ++ med.active_ingredient.getD ""]
         else if presentStr med.atc_code then
           ["ATC kód: " ++ med.atc_code.getD ""]
         else [])
     ++ (if presentStr med.strength then ["Síla: " ++ med.strength.getD ""] else [])
     ++ (if presentStr med.form then ["Léková forma: " ++ med.form.getD ""] else [])
     ++ (if presentStr med.manufacturer then ["Výrobce: " ++ med.manufacturer.getD ""] else [])
     ++ (if presentStr med.indication then ["Indikace: " ++ med.indication.getD ""] else [])
     ++ (if presentStr med.contraindication then
           ["Kontraindikace: " ++ med.contraindication.getD ""] else [])
     ++ (if presentStr med.side_effects then
           ["Nežádoucí účinky: " ++ med.side_effects.getD ""] else [])
     ++ (if presentStr med.interactions then ["Interakce: " ++ med.interactions.getD ""] else [])
     ++ (if presentStr med.dosage then ["Dávkování: " ++ med.dosage.getD ""] else []))

/-!
### `load_sukl_csv` — CSV loading control flow

`pd.read_csv` and the file system are abstracted into a `CsvFile` record:
whether the path resolves, the sniffed encoding (`_detect_encoding` returns
the chardet guess only above 0.8 confidence, else `None`), and the outcome
of `pd.read_csv(file, encoding, sep)` per encoding/separator pair (an
`Except.error` models a raised parse or decode exception; the loop treats
`UnicodeDecodeError` and every other exception identically — log and
continue).
-/

/-- A candidate CSV source file together with the parser's behaviour on it. -/
structure CsvFile where
  present : Bool
  detected : Option String
  parse : String → Char → Except String DataFrame

/-- The fixed retry list `supported_encodings` of `SUKLDataProcessor`. -/
def supported_encodings : List String := ["windows-1250", "utf-8", "iso-8859-2", "cp1252"]

/-- Inner separator loop: first separator whose parse succeeds with more
than 5 columns; parses that fail or yield at most 5 columns are skipped. -/
def trySeparators (f : CsvFile) (enc : String) : List Char → Option DataFrame
  | [] => Option.none
  | sep :: rest =>
      match f.parse enc sep with
      | .ok df => if df.cols.length > 5 then some df else trySeparators f enc rest
      | .error _ => trySeparators f enc rest

/-- Outer encoding loop over `[detected] + supported_encodings`. -/
def tryEncodings (f : CsvFile) : List String → Option DataFrame
  | [] => Option.none
  | enc :: rest =>
      match trySeparators f enc [',', ';', '\t'] with
      | some df => some df
      | Option.none => tryEncodings f rest

/-- `load_sukl_csv`.  The missing-path check raises `FileNotFoundError`.
After the encoding/separator loop fails, the fallback calls
`pd.read_csv(file_path, encoding="windows-1250", sep=";", errors="ignore",
low_memory=False)`; `errors` is not a parameter of `pandas.read_csv` in any
pandas release (the byte-level suppression parameter is `encoding_errors`),
so that call raises `TypeError: read_csv() got an unexpected keyword
argument errors` before touching the file, and the surrounding handler
re-raises it as `ValueError`.  The embedded fallback therefore produces that
error unconditionally. -/
def load_sukl_csv (f : CsvFile) : Except String DataFrame :=
  if ¬ f.present then .error "FileNotFoundError: SÚKL CSV soubor nenalezen"
  else
    let encodings := (match f.detected with
      | some e => [e]
      | Option.none => []) ++ supported_encodings
    match tryEncodings f encodings with
    | some df => .ok (clean_czech_text df)
    | Option.none =>
        .error "ValueError: Nepodařilo se načíst SÚKL data: read_csv() got an unexpected keyword argument errors"

/-!
## Fixed texts from `app/config.py` and `app/models.py`
-/

/-- `settings.medical_disclaimer` (config.py), verbatim including the
leading/trailing indentation of the triple-quoted literal. -/
def medical_disclaimer : String :=
  "\n    UPOZORNĚNÍ: Tyto informace slouží pouze pro informativní účely a nenahrazují \n    odbornou lékařskou radu, diagnózu nebo léčbu. Vždy se poraďte s kvalifikovaným \n    zdravotnickým odborníkem před užitím jakéhokoliv léku.\n    "

/-!
## External services — the `Env` of oracles

`OpenAI` chat/vision calls and the Supabase `match_medications` RPC are the
black-box collaborators of this codebase.  They are bundled into one record:
a component that may raise at construction time carries an `Option String`
(`some msg` models the raised exception's text).
-/

/-- `VisionResult` (models.py): structured outcome of the vision call, with
the pydantic field defaults. -/
structure VisionResult where
  name : String
  active_ingredient : String := "není viditelné"
  strength : String := "není viditelné"
  form : String := "není viditelné"
  manufacturer : String := "není viditelné"
  registration_number : String := "není viditelné"
  confidence_score : ℚ
  warning : Option String := Option.none
  validated : Option Bool := Option.none
  sukl_matches : Option (List PyDict) := Option.none

/-- `TextProcessingResult` (models.py). -/
structure TextProcessingResult where
  answer : String
  sources : List String
  confidence : String

/-- One row produced by the `match_medications` RPC (id omitted — nothing
in the orchestration path reads it). -/
structure SearchResult where
  content : String
  metadata : PyDict
  similarity : ℚ

/-- The black-box collaborators.  `visionInit` / `storeInit` model whether
`VisionProcessor()` / `MedicationVectorStore()` construction raises (`some
msg` is the exception text — e.g. missing Supabase environment variables);
`vision` is `process_medication_image` (total: it catches internally and
degrades to an error `VisionResult`); `rpcRows` is the remote
`match_medications` call for a query and a match count; `llm` is the
retrieval-QA chain run (`Except.error` models a raised exception anywhere in
chain construction or the model call). -/
structure Env where
  visionInit : Option String := Option.none
  storeInit : Option String := Option.none
  vision : String → VisionResult
  rpcRows : String → Nat → List SearchResult
  llm : String → Except String String

/-!
## `app/database/vector_store.py`
-/

/-- `search_medications` / `_direct_similarity_search`: empty query gives
`[]`; otherwise the RPC's rows are post-filtered by the similarity
threshold.  Remote errors degrade to `[]` (the whole body is wrapped in
try/except returning `[]`), so the embedded call is total. -/
def search_medications (env : Env) (query : String) (limit : Nat) (thr : ℚ) :
    List SearchResult :=
  if pyStrip query = "" then []
  else (env.rpcRows query limit).filter (fun r => thr ≤ r.similarity)

/-- The enrichment loop of `validate_medication_info` (lines 369-371): copy
each metadata entry whose key is absent from the vision dict or whose
current value is the placeholder; note there is no truthiness test on the
incoming value here. -/
def enrichAbsentOrPlaceholder (d : PyDict) (metadata : PyDict) : PyDict :=
  metadata.foldl (fun acc kv =>
    if (dictGet acc kv.1).isNone || isNotVisible ((dictGet acc kv.1).getD .none) then
      dictSet acc kv.1 kv.2
    else acc) d

/-- `validate_medication_info`: guard on a usable name, build the search
query (note: when `active_ingredient` is absent, `get(...) != placeholder`
still holds for the `""` default, and the subsequent subscript raises
`KeyError`; a non-string name makes either the `+=` or the downstream
`query.strip()` raise), run a top-3 search at threshold 0.6, then either
attach matches/`validated=True` and enrich placeholder fields from the best
match, or mark `validated=False` with a not-found warning. -/
def validate_medication_info (env : Env) (d : PyDict) : Except String PyDict :=
  if ¬ pyTruthyOpt (dictGet d "name") ∨ isNotVisible ((dictGet d "name").getD .none) then
    .ok d
  else
    match (if ¬ isNotVisible ((dictGet d "active_ingredient").getD (.str "")) then
        match dictGet d "active_ingredient" with
        | Option.none => Except.error "KeyError: active_ingredient"
        | some aiV =>
            match (dictGet d "name").getD .none with
            | .str s => Except.ok (PyVal.str (s ++ " " ++ pyFormat aiV))
            | _ => Except.error "unsupported operand type for +="
      else Except.ok ((dictGet d "name").getD .none)) with
    | .error e => .error e
    | .ok sqV =>
      match sqV with
      | .str sq =>
          (match search_medications env sq 3 (mkRat 3 5) with
           | [] => .ok (dictSet (dictSet d "validated" (.bool false)) "warning"
               (.str "Lék nebyl nalezen v databázi SÚKL. Ověřte správnost informací."))
           | best :: rest => .ok (enrichAbsentOrPlaceholder
               (dictSet (dictSet d "sukl_matches"
                   (.listV ((best :: rest).map (fun m => .dictV m.metadata)))) "validated" (.bool true))
               best.metadata))
      | .none => .error "NoneType object has no attribute strip"
      | _ => .error "object has no attribute strip"

/-!
## `app/ai/text_processor.py`
-/

/-- `_preprocess_query`: trim, then prefix an intent label chosen by
keyword matching on the lowercased query. -/
def preprocess_query (query : String) : String :=
  let processed := pyStrip query
  let ql := pyLower processed
  if ["co je", "jaký je", "co to je"].any (fun p => strContains ql p) then
    "Informace o léku: " ++ processed
  else if strContains ql "účinná látka" || strContains ql "obsahuje" then
    "Účinná látka léku: " ++ processed
  else if ["dávkování", "kolik", "jak často"].any (fun p => strContains ql p) then
    "Dávkování léku: " ++ processed
  else if strContains ql "interakce" || strContains ql "užívat s" then
    "Lékové interakce: " ++ processed
  else processed

/-- `_get_source_documents`: metadata of the top-5 matches at similarity
≥ 0.6 (its try/except degrades to `[]`, so total here). -/
def get_source_documents (env : Env) (query : String) : List PyDict :=
  (search_medications env query 5 (mkRat 3 5)).map (fun r => r.metadata)

/-- The `positive_indicators` keyword list of
`_assess_response_confidence`, verbatim. -/
def positive_indicators : List String :=
  ["účinná látka", "indikace", "dávkování", "síla", "tablety", "mg", "ml"]

/-- Number of distinct indicator keywords occurring in the lowercased
answer (`sum(1 for indicator in positive_indicators if indicator in
response_lower)`). -/
def foundIndicators (response : String) : Nat :=
  (positive_indicators.filter (fun ind => strContains (pyLower response) ind)).length

/-- `_assess_response_confidence`: length gate, then source-count gate, then
the keyword-hit bands. -/
def assess_response_confidence (response : String) (sources : List PyDict) : String :=
  if (pyStrip response).length < 50 then "low"
  else if sources.isEmpty then "low"
  else if sources.length < 2 then "medium"
  else
    let found := foundIndicators response
    if found ≥ 4 then "high"
    else if found ≥ 2 then "medium"
    else "low"

/-- `_add_medical_disclaimers`: answer body, a blank line, a rule, the
trimmed fixed disclaimer. -/
def add_medical_disclaimers (answer : String) : String :=
  pyStrip answer ++ "\n\n---\n" ++ pyStrip medical_disclaimer

/-- `source.get("name", "Neznámý zdroj")` for one retrieved metadata dict.
(The stored metadata always carries a non-empty string name, because
extraction drops nameless records; other shapes fall back to the default
here.) -/
def sourceDisplayName (d : PyDict) : String :=
  match dictGet d "name" with
  | some (.str s) => s
  | _ => "Neznámý zdroj"

/-- `process_text_query`: preprocess, run the retrieval-QA chain, collect
sources, grade confidence, append the disclaimer; any exception from chain
construction or the model call is caught and converted into the fixed
apology answer with no sources and low confidence. -/
def process_text_query (env : Env) (query : String) : TextProcessingResult :=
  let processed := preprocess_query query
  match env.llm processed with
  | .error e =>
      { answer := "Omlouvám se, nastala chyba při zpracování dotazu: " ++ e ++
          "\n\nProsím zkuste přeformulovat dotaz nebo kontaktujte lékárnu.",
        sources := [],
        confidence := "low" }
  | .ok result =>
      let sources := get_source_documents env processed
      let confidence := assess_response_confidence result sources
      let enhanced := add_medical_disclaimers result
      { answer := enhanced,
        sources := sources.map sourceDisplayName,
        confidence := confidence }

/-- The bold banner `search_by_symptoms` puts in front of the answer. -/
def symptomBanner : String :=
  "⚠️ **DŮLEŽITÉ VAROVÁNÍ**: Tyto informace nejsou lékařskou radou!\n\n"

/-- `search_by_symptoms`: wrap the symptoms in the fixed warning query, run
the normal pipeline, then unconditionally prepend the banner and force
confidence to low. -/
def search_by_symptoms (env : Env) (symptoms : String) : TextProcessingResult :=
  let warning_query :=
    "\n        UPOZORNĚNÍ: Následující informace NEJSOU lékařská diagnóza ani doporučení léčby.\n        \n        Hledám léky které se OBECNĚ používají při symptomech: " ++
      symptoms ++
      "\n        \n        DŮLEŽITÉ: Vždy se poraďte s lékařem před užitím jakéhokoliv léku.\n        "
  let result := process_text_query env warning_query
  { result with answer := symptomBanner ++ result.answer, confidence := "low" }

/-!
## `app/ai/vision_processor.py`
-/

/-- The parsed vision-model response (`result_data` after
`_parse_vision_response`), for the fields the quality-validation step reads
(`name`, `active_ingredient`, `confidence_score`, `warning`); both parse
paths guarantee `name` and `confidence_score` are present. -/
structure RawVision where
  name : String
  active_ingredient : String
  strength : String := "není viditelné"
  form : String := "není viditelné"
  manufacturer : String := "není viditelné"
  registration_number : String := "není viditelné"
  confidence_score : ℚ
  extracted_text : String := ""
  warning : Option String := Option.none

/-- `_validate_recognition_quality`: subtract 0.3 (floored at 0) when the
name is empty or the placeholder (also recording a name warning), a further
0.2 (floored at 0) when the active ingredient is empty or the placeholder,
then overwrite the warning according to the confidence band and round the
score to two decimals. -/
def validate_recognition_quality (r : RawVision) : RawVision :=
  let c0 := r.confidence_score
  let nameMissing := r.name = "" ∨ r.name = "není viditelné"
  let c1 := if nameMissing then max 0 (c0 - mkRat 3 10) else c0
  let w1 := if nameMissing then some "Nepodařilo se rozpoznat název léku" else r.warning
  let c2 := if r.active_ingredient = "" ∨ r.active_ingredient = "není viditelné" then
      max 0 (c1 - mkRat 1 5)
    else c1
  let w2 :=
    if c2 < mkRat 2 5 then
      some "Velmi nízká spolehlivost rozpoznání. Zkuste obrázek s lepším osvětlením nebo z jiného úhlu."
    else if c2 < mkRat 3 5 then
      some "Nízká spolehlivost rozpoznání. Doporučujeme ověřit informace."
    else if c2 < mkRat 4 5 then
      some "Střední spolehlivost rozpoznání. Zkontrolujte správnost údajů."
    else w1
  { r with confidence_score := round2 c2, warning := w2 }

/-- `setattr(vision_result, key, value)` for each validation entry whose key
is an existing attribute (`hasattr`); non-objects are untouched (unreachable
-- the loop only runs when the earlier attribute reads succeeded). -/
def pySetAttrs (v : PyVal) (updates : PyDict) : PyVal :=
  match v with
  | .obj fields =>
      .obj (updates.foldl (fun acc kv =>
        if (dictGet acc kv.1).isSome then dictSet acc kv.1 kv.2 else acc) fields)
  | x => x

/-- `validate_against_sukl` (vision_processor.py): the guard reads
`vision_result.name` by attribute access — on a plain dict that raises
`AttributeError` before the internal try block, so the error propagates to
the caller; with a usable name the store validation runs and its entries are
copied back onto the object, any exception inside the try degrading to the
unvalidated result with a warning. -/
def validate_against_sukl (env : Env) (v : PyVal) : Except String PyVal := do
  let nameV ← pyAttr v "name"
  if ¬ pyTruthy nameV ∨ isNotVisible nameV then
    return v
  else
    match (do
        let fields ← (match v with
          | .obj fs => Except.ok fs
          | .dictV _ => Except.error "dict object has no attribute dict"
          | _ => Except.error "object has no attribute dict")
        let validation ← validate_medication_info env fields
        Except.ok (pySetAttrs v validation) : Except String PyVal) with
    | .ok v2 => return v2
    | .error _ =>
        return (match v with
          | .obj fs => .obj (dictSet fs "warning"
              (.str "Nepodařilo se ověřit informace v databázi SÚKL"))
          | x => x)

/-!
## `app/workflows/medication_workflow.py`
-/

/-- `MedicationState` (the TypedDict threaded через the workflow); every
key is initialised by the API layer, so each field holds the key's value
(`Option.none` for a `None` value). -/
structure MedicationState where
  query : String
  query_type : String
  image_data : Option String
  extracted_text : Option String
  medication_info : Option PyDict
  safety_warnings : List String
  disclaimer : String
  confidence_score : ℚ
  sources : List String
  error : Option String

/-- Lift an optional bool field into a `PyVal`. -/
def optBoolV : Option Bool → PyVal
  | some b => .bool b
  | Option.none => .none

/-- `vision_result.dict()`: the pydantic field dict, in declaration order. -/
def visionDict (v : VisionResult) : PyDict :=
  [("name", .str v.name),
   ("active_ingredient", .str v.active_ingredient),
   ("strength", .str v.strength),
   ("form", .str v.form),
   ("manufacturer", .str v.manufacturer),
   ("registration_number", .str v.registration_number),
   ("confidence_score", .num v.confidence_score),
   ("warning", optStrV v.warning),
   ("validated", optBoolV v.validated),
   ("sukl_matches", match v.sukl_matches with
     | some l => .listV (l.map PyVal.dictV)
     | Option.none => PyVal.none)]

/-- `extract_medication_from_image`: a missing/empty image payload sets the
error and returns at once (before the vision processor is even built); a
vision-processor construction failure is caught into the stage error;
otherwise the vision result is written into the state and its warning, when
truthy, appended to the safety warnings. -/
def extract_medication_from_image (env : Env) (s : MedicationState) : MedicationState :=
  if (match s.image_data with
      | some img => img == ""
      | Option.none => true : Bool) then
    { s with error := some "Chybí obrázek pro zpracování" }
  else
    match env.visionInit with
    | some e => { s with error := some ("Chyba při rozpoznání obrázku: " ++ e) }
    | Option.none =>
        let vr := env.vision (s.image_data.getD "")
        let s1 := { s with
          medication_info := some (visionDict vr),
          confidence_score := vr.confidence_score,
          extracted_text := some ("Název: " ++ vr.name) }
        match vr.warning with
        | some w => if w = "" then s1 else { s1 with safety_warnings := s1.safety_warnings ++ [w] }
        | Option.none => s1

/-- The enrichment loop of `search_sukl_database` (lines 129-132): copy each
truthy metadata value whose key is absent from the recognition dict or whose
current value is the placeholder. -/
def mergeTruthyAbsentOrPlaceholder (mi metadata : PyDict) : PyDict :=
  metadata.foldl (fun acc kv =>
    if pyTruthy kv.2 && ((dictGet acc kv.1).isNone || isNotVisible ((dictGet acc kv.1).getD .none)) then
      dictSet acc kv.1 kv.2
    else acc) mi

/-- `metadata.get("name", "SÚKL databáze")` for the sources list (stored
metadata names are non-empty strings; other shapes fall back to the
default here). -/
def sourceNameDb (d : PyDict) : String :=
  match dictGet d "name" with
  | some (.str s) => s
  | _ => "SÚKL databáze"

/-- `search_sukl_database`.  Everything runs under one try/except whose
handler writes `error := "Chyba při vyhledávání v databázi: " ++ str(e)`;
exceptions modelled: vector-store construction failure, and the attribute
errors of the dynamic state reads — `state.get("medication_info", {})`
returns the stored `None` (the key is always present), so `.get("name")` on
it raises, as does `.strip()` on a `None`/non-string search query; state
mutations made before the raise (the merged dict, the sources list) persist.
For text queries the stage adopts the text-processor result with the fixed
confidence mapping; for image queries it merges the best match at
similarity ≥ 0.6 into the recognition dict and re-runs the cross-validation,
whose outcome (or exception) lands back in the state. -/
def search_sukl_database (env : Env) (s : MedicationState) : MedicationState :=
  match env.storeInit with
  | some e => { s with error := some ("Chyba při vyhledávání v databázi: " ++ e) }
  | Option.none =>
    match (do
      let sqV ← (if s.query_type = "image" then do
          let sq0 : PyVal := match s.extracted_text with
            | some t => .str t
            | Option.none => .none
          let nameHit ← (match s.medication_info with
            | some mi => Except.ok (dictGet mi "name")
            | Option.none => Except.error "NoneType object has no attribute get")
          if pyTruthyOpt nameHit then Except.ok (nameHit.getD .none) else Except.ok sq0
        else Except.ok (.str s.query))
      match sqV with
      | .str t => Except.ok t
      | .none => Except.error "NoneType object has no attribute strip"
      | _ => Except.error "object has no attribute strip" : Except String String) with
    | .error e => { s with error := some ("Chyba při vyhledávání v databázi: " ++ e) }
    | .ok sq =>
      if pyStrip sq = "" then { s with error := some "Chybí dotaz pro vyhledání v databázi" }
      else if s.query_type = "text" then
        let result := process_text_query env sq
        { s with
          medication_info := some [("answer", .str result.answer),
                                   ("sources", .listV (result.sources.map PyVal.str)),
                                   ("confidence", .str result.confidence)],
          sources := result.sources,
          confidence_score :=
            if result.confidence = "high" then mkRat 9 10
            else if result.confidence = "medium" then mkRat 7 10
            else mkRat 2 5 }
      else
        match search_medications env sq 5 (mkRat 3 5) with
        | [] => { s with safety_warnings :=
            s.safety_warnings ++ ["Informace o tomto léku nebyly nalezeny v databázi SÚKL"] }
        | best :: rest =>
          let mi2 : PyDict :=
            match s.medication_info with
            | some mi =>
                if mi.isEmpty then best.metadata
                else mergeTruthyAbsentOrPlaceholder mi best.metadata
            | Option.none => best.metadata
          let srcs := ((best :: rest).take 3).map (fun r => sourceNameDb r.metadata)
          let s1 := { s with medication_info := some mi2, sources := srcs }
          if mi2.isEmpty then s1
          else
            match env.visionInit with
            | some e => { s1 with error := some ("Chyba při vyhledávání v databázi: " ++ e) }
            | Option.none =>
              match validate_against_sukl env (.dictV mi2) with
              | .ok validated =>
                  { s1 with medication_info := some (match validated with
                      | .obj fs => fs
                      | .dictV dd => dd
                      | _ => mi2) }
              | .error e => { s1 with error := some ("Chyba při vyhledávání v databázi: " ++ e) }

/-- `validate_and_enhance_info`: penalise the numeric confidence by 0.2
(floored at 0) when name or active ingredient is missing, then upper-case
and trim the name.  Its exceptions are swallowed by its own handler, and
every mutation is made in place on the state's own dict, so the observable
outcome is the same whether or not the later logging-only strength/form
check raises; a `None` medication info raises on the very first `.get`,
leaving the state untouched, and a non-string name leaves the dict
unchanged (`.upper()` raises before the assignment). -/
def validate_and_enhance_info (s : MedicationState) : MedicationState :=
  match s.medication_info with
  | Option.none => s
  | some mi =>
    let missing := ["name", "active_ingredient"].filter (fun f => ¬ pyTruthyOpt (dictGet mi f))
    let s1 := if ¬ missing.isEmpty then
        { s with confidence_score := max 0 (s.confidence_score - mkRat 1 5) }
      else s
    let mi2 := if pyTruthyOpt (dictGet mi "name") then
        match dictGet mi "name" with
        | some (.str n) => dictSet mi "name" (.str (pyStrip (pyUpper n)))
        | _ => mi
      else mi
    { s1 with medication_info := some mi2 }

/-- The four fixed warnings `add_safety_disclaimers` can emit, in emission
order. -/
def fixed_safety_warnings : List String :=
  ["⚠️ Zkontrolujte kontraindikace před užitím",
   "⚠️ Informujte se o možných interakcích s jinými léky",
   "⚠️ Tento lék vyžaduje lékařský předpis",
   "⚠️ Tento typ léku vyžaduje zvláštní pozornost při užívání"]

/-- The fresh warnings list `add_safety_disclaimers` builds from its own
substring checks on the medication dict (an exception — attribute access on
a non-string `prescription_required`/`name` — aborts the build). -/
def computeSafetyWarnings (mi : PyDict) : Except String (List String) :=
  match pyLowerE ((dictGet mi "prescription_required").getD (.str "")) with
  | .error e => .error e
  | .ok presL =>
    match pyLowerE ((dictGet mi "name").getD (.str "")) with
    | .error e => .error e
    | .ok nameL =>
        .ok ((if pyTruthyOpt (dictGet mi "contraindication") then
                ["⚠️ Zkontrolujte kontraindikace před užitím"] else [])
          ++ (if pyTruthyOpt (dictGet mi "interactions") then
                ["⚠️ Informujte se o možných interakcích s jinými léky"] else [])
          ++ (if strContains presL "předpis" then
                ["⚠️ Tento lék vyžaduje lékařský předpis"] else [])
          ++ (if ["antibio", "kortiko", "psycho"].any (fun k => strContains nameL k) then
                ["⚠️ Tento typ léku vyžaduje zvláštní pozornost při užívání"] else []))

/-- The addendum concatenated after the fixed disclaimer (verbatim
triple-quoted literal). -/
def disclaimer_addendum : String :=
  "\n        \n        Informace pocházejí z oficiální databáze SÚKL, ale mohou se změnit. \n        Pro nejaktuálnější informace kontaktujte lékárnu nebo lékaře.\n        "

/-- The hardcoded fallback disclaimer of the stage's exception handler
(assigned unstripped). -/
def fallback_disclaimer : String :=
  "\n        UPOZORNĚNÍ: Tyto informace slouží pouze pro informativní účely a nenahrazují \n        odbornou lékařskou radu. Vždy se poraďte s lékařem před užitím léků.\n        "

/-- `add_safety_disclaimers`: on success REPLACE `safety_warnings` with the
freshly built list and set the stripped disclaimer+addendum; any exception
(including `.get` on a `None` medication info) falls into the handler, which
only sets the fallback disclaimer — the incoming warnings then survive. -/
def add_safety_disclaimers (s : MedicationState) : MedicationState :=
  match s.medication_info with
  | Option.none => { s with disclaimer := fallback_disclaimer }
  | some mi =>
    match computeSafetyWarnings mi with
    | .error _ => { s with disclaimer := fallback_disclaimer }
    | .ok ws => { s with safety_warnings := ws,
                         disclaimer := pyStrip (medical_disclaimer ++ disclaimer_addendum) }

/-- The compiled workflow of `create_medication_workflow`: the entry router
chooses on `query_type` alone ("image" goes through `extract_image` first),
and the remaining edges are unconditional:
`extract_image → search_database → validate_info → add_disclaimers → END`.
No edge consults the `error` field. -/
def run_medication_workflow (env : Env) (s : MedicationState) : MedicationState :=
  if s.query_type = "image" then
    add_safety_disclaimers (validate_and_enhance_info
      (search_sukl_database env (extract_medication_from_image env s)))
  else
    add_safety_disclaimers (validate_and_enhance_info (search_sukl_database env s))

/-!
## `app/main.py`
-/

/-- `APIResponse` (models.py); the wall-clock timestamp field is outside
the embedding. -/
structure APIResponse where
  status : String
  data : PyDict := []
  error : String := ""
  disclaimer : String := ""

/-- The initial `MedicationState` both endpoints build. -/
def initial_state (q qt : String) (img : Option String) : MedicationState :=
  { query := q, query_type := qt, image_data := img,
    extracted_text := Option.none, medication_info := Option.none,
    safety_warnings := [], disclaimer := "", confidence_score := 0,
    sources := [], error := Option.none }

/-- The generic error `APIResponse` of the text endpoint's exception
handler — note it sets no disclaimer, so the field keeps its empty
default. -/
def text_query_error_response : APIResponse :=
  { status := "error",
    error := "Nastala chyba při zpracování dotazu. Zkuste to prosím znovu." }

/-- The generic error `APIResponse` of the image endpoint's exception
handler. -/
def image_query_error_response : APIResponse :=
  { status := "error",
    error := "Nastala chyba při zpracování obrázku. Zkuste to prosím znovu s lepším osvětlením." }

/-- The `/api/query/text` handler: the blank-query `HTTPException` and the
`HTTPException` raised when the final state carries an error are both caught
by the handler's own broad `except`, which answers with the generic error
response (and hence an empty disclaimer); on success the answer dict (or
the structured wrapper) is returned with the stripped state disclaimer. -/
def text_query (env : Env) (q : String) : APIResponse :=
  if pyStrip q = "" then text_query_error_response
  else
    let final := run_medication_workflow env (initial_state q "text" Option.none)
    if final.error.isSome then text_query_error_response
    else
      let hasAnswer := match final.medication_info with
        | some mi => (dictGet mi "answer").isSome
        | Option.none => false
      let data : PyDict :=
        if hasAnswer then final.medication_info.getD []
        else [("medication_info", (match final.medication_info with
                | some mi => PyVal.dictV mi
                | Option.none => PyVal.none)),
              ("confidence_score", .num final.confidence_score),
              ("sources", .listV (final.sources.map PyVal.str))]
      { status := "success", data := data, disclaimer := pyStrip final.disclaimer }

/-- The `/api/query/image` handler (same error shape; a `None` medication
info would fail the response model's validation and likewise fall into the
generic error response). -/
def image_query (env : Env) (img : String) : APIResponse :=
  if pyStrip img = "" then image_query_error_response
  else
    let final := run_medication_workflow env (initial_state "" "image" (some img))
    if final.error.isSome then image_query_error_response
    else
      match final.medication_info with
      | some mi => { status := "success", data := mi, disclaimer := pyStrip final.disclaimer }
      | Option.none => image_query_error_response

/-!
## Concrete fixtures used by the claim theorems
-/

/-- Environment whose retrieval finds nothing and whose chain returns an
empty answer. -/
def envEmpty : Env :=
  { vision := fun _ => { name := "X", confidence_score := mkRat 1 2 },
    rpcRows := fun _ _ => [],
    llm := fun _ => Except.ok "" }

/-- Stored metadata sidecar of the PARALEN record (shape produced by
`create_embedding_texts`). -/
def paralenMetadata : PyDict :=
  [("name", .str "PARALEN 500MG"), ("active_ingredient", .str "Paracetamolum"),
   ("registration_number", .str "16/123/69-C"), ("atc_code", .str "N02BE01"),
   ("prescription_required", PyVal.none)]

/-- Environment whose retrieval returns the PARALEN match at similarity
0.9. -/
def envParalen : Env :=
  { vision := fun _ => { name := "PARALEN 500MG", confidence_score := mkRat 17 20 },
    rpcRows := fun _ _ => [{ content := "doc", metadata := paralenMetadata, similarity := mkRat 9 10 }],
    llm := fun _ => Except.ok "" }

/-- A vision result that read the name off the box but nothing else. -/
def vrParalen : VisionResult := { name := "PARALEN 500MG", confidence_score := mkRat 17 20 }

/-- The workflow state as it reaches `search_database` after a successful
image extraction of `vrParalen`. -/
def stateAfterVision : MedicationState :=
  { query := "", query_type := "image", image_data := some "/9j/abc",
    extracted_text := some "Název: PARALEN 500MG",
    medication_info := some (visionDict vrParalen),
    safety_warnings := ["Střední spolehlivost rozpoznání. Zkontrolujte správnost údajů."],
    disclaimer := "", confidence_score := mkRat 17 20, sources := [],
    error := Option.none }

/-- Environment where `MedicationVectorStore()` construction raises (the
Supabase environment variables are unset). -/
def envStoreFail : Env :=
  { storeInit := some "SUPABASE_URL a SUPABASE_ANON_KEY environment variables musí být nastavené",
    vision := fun _ => { name := "X", confidence_score := 0 },
    rpcRows := fun _ _ => [], llm := fun _ => Except.ok "" }

/-- Environment where the retrieval-QA chain raises. -/
def envLlmFail : Env :=
  { vision := fun _ => { name := "X", confidence_score := 0 },
    rpcRows := fun _ _ => [], llm := fun _ => Except.error "boom" }

/-- A single-column table: what every encoding/separator attempt yields on
the wrong-shape file below. -/
def oneColDf : DataFrame := { cols := ["a"], rows := [[("a", some "1")]] }

/-- An existing file that parses cleanly under every tried encoding and
separator but never with more than 5 columns. -/
def oneColFile : CsvFile :=
  { present := true, detected := Option.none, parse := fun _ _ => .ok oneColDf }

/-- A file whose path does not resolve. -/
def missingFile : CsvFile :=
  { present := false, detected := Option.none, parse := fun _ _ => .error "unreadable" }

/-- The canonical PARALEN record of the C8 scenario. -/
def paralenRecord : MedicationInfo :=
  { name := some "PARALEN 500MG", active_ingredient := some "Paracetamolum",
    strength := some "500 mg", form := some "Potahované tablety" }

/-!
## Claim theorems
-/

/-- C9: for every symptom string (and every behaviour of the external
services — success or degraded error path alike), `search_by_symptoms`
returns confidence "low" and an answer that begins with the fixed bold
warning banner; the override is unconditional. -/
theorem c9_symptom_search_always_low_and_bannered (env : Env) (symptoms : String) :
    (search_by_symptoms env symptoms).confidence = "low" ∧
    ∃ rest, (search_by_symptoms env symptoms).answer = symptomBanner ++ rest := by
  exact ⟨rfl, ⟨_, rfl⟩⟩

/-- C8: the Document Builder's content string is the newline-join of one
"Label: value" line per present field in the fixed order (with the ATC-code
substitution), and on the PARALEN record it yields exactly the four expected
lines in order. -/
theorem c8_content_lines_fixed_order :
    (∀ meds : List MedicationInfo,
      (create_embedding_texts meds).map EmbeddingDoc.content = meds.map contentPerClaim) ∧
    (create_embedding_texts [paralenRecord]).map EmbeddingDoc.content =
      ["Název: PARALEN 500MG\nÚčinná látka: Paracetamolum\nSíla: 500 mg\nLéková forma: Potahované tablety"] := by
  constructor
  · intro meds
    simp only [create_embedding_texts, List.map_map]
    rfl
  · rfl

/-- C7: the loader raises `FileNotFoundError` on a missing path, but it is
not true that an existing, everywhere-parseable wrong-shape file never
raises: on a file every encoding/separator attempt parses into a table of at
most 5 columns, the fallback parse is reached and its invalid `errors`
keyword makes `pandas.read_csv` raise `TypeError`, re-raised as
`ValueError` — so loading raises instead of returning a table. -/
theorem c7_wrong_shape_file_raises :
    (∀ enc sep, ∃ df, oneColFile.parse enc sep = .ok df ∧ df.cols.length ≤ 5) ∧
    load_sukl_csv oneColFile =
      .error "ValueError: Nepodařilo se načíst SÚKL data: read_csv() got an unexpected keyword argument errors" ∧
    load_sukl_csv missingFile = .error "FileNotFoundError: SÚKL CSV soubor nenalezen" := by
  refine ⟨fun enc sep => ⟨oneColDf, rfl, by decide⟩, rfl, rfl⟩

/-- C2: the disclaimer is NOT guaranteed on the error paths: when the
vector-store construction fails, the text endpoint answers with the generic
error `APIResponse`, whose `disclaimer` field is the empty-string default;
and when the QA chain raises, the text-processor's apology answer does not
contain the appended disclaimer at all. -/
theorem c2_error_paths_lack_disclaimer :
    (text_query envStoreFail "Co je Paralen?").status = "error" ∧
    (text_query envStoreFail "Co je Paralen?").disclaimer = "" ∧
    (process_text_query envLlmFail "Co je Paralen?").answer =
      "Omlouvám se, nastala chyba při zpracování dotazu: boom\n\nProsím zkuste přeformulovat dotaz nebo kontaktujte lékárnu." ∧
    strContains (process_text_query envLlmFail "Co je Paralen?").answer (pyStrip medical_disclaimer) = false := by
  refine ⟨by rfl, by rfl, by rfl, by decide⟩

/-- C3: on an image query whose search finds the PARALEN match at
similarity 0.9 ≥ 0.6, the stage does merge only absent/placeholder fields
(the placeholder active ingredient is backfilled, the real name survives,
the absent ATC code is added), but the subsequent cross-validation call
receives the plain state dict, whose first attribute read raises
`AttributeError`, so the stage ends with the `error` field set — not, as
claimed, without it. -/
theorem c3_revalidation_crashes_with_error_set :
    (search_medications envParalen "PARALEN 500MG" 5 (mkRat 3 5)).length = 1 ∧
    (search_sukl_database envParalen stateAfterVision).error =
      some "Chyba při vyhledávání v databázi: dict object has no attribute name" ∧
    dictGet ((search_sukl_database envParalen stateAfterVision).medication_info.getD []) "name" =
      some (.str "PARALEN 500MG") ∧
    dictGet ((search_sukl_database envParalen stateAfterVision).medication_info.getD []) "active_ingredient" =
      some (.str "Paracetamolum") ∧
    dictGet ((search_sukl_database envParalen stateAfterVision).medication_info.getD []) "atc_code" =
      some (.str "N02BE01") ∧
    dictGet ((search_sukl_database envParalen stateAfterVision).medication_info.getD []) "strength" =
      some (.str "není viditelné") := by
  refine ⟨by rfl, by rfl, by rfl, by rfl, by rfl, by rfl⟩

/-- C1 counterexample: on an image query with a missing image payload,
ExtractImage populates `error` — but the state machine does NOT halt: the
final workflow state differs from the post-ExtractImage state (SearchDatabase
has overwritten the error with its own message and AddDisclaimers has written
a disclaimer), refuting "no further stages run". -/
theorem c1_counterexample :
    (extract_medication_from_image envEmpty (initial_state "" "image" Option.none)).error =
      some "Chybí obrázek pro zpracování" ∧
    (run_medication_workflow envEmpty (initial_state "" "image" Option.none)).error =
      some "Chyba při vyhledávání v databázi: NoneType object has no attribute get" ∧
    (run_medication_workflow envEmpty (initial_state "" "image" Option.none)).disclaimer =
      fallback_disclaimer ∧
    run_medication_workflow envEmpty (initial_state "" "image" Option.none) ≠
      extract_medication_from_image envEmpty (initial_state "" "image" Option.none) := by
  refine ⟨by rfl, by rfl, by rfl, fun h => ?_⟩
  have hd := congrArg MedicationState.error h
  rw [show (run_medication_workflow envEmpty (initial_state "" "image" Option.none)).error =
        some "Chyba při vyhledávání v databázi: NoneType object has no attribute get" from by rfl,
      show (extract_medication_from_image envEmpty (initial_state "" "image" Option.none)).error =
        some "Chybí obrázek pro zpracování" from by rfl] at hd
  exact absurd hd (by decide)

/-- C1 (amended): setting `error` does not halt the pipeline — the graph
edges are unconditional.  For an image query with a missing image payload
(and a vector store that constructs), ExtractImage sets its error, then
SearchDatabase still runs and replaces the error with its own
attribute-error message, ValidateInfo swallows its failure leaving the state
unchanged, and AddDisclaimers runs its exception path, writing the fallback
disclaimer; the endpoint maps any blank/errored request to the generic error
response rather than the accumulated partial state. -/
theorem c1_error_does_not_halt_pipeline (env : Env) (h : env.storeInit = Option.none) :
    (extract_medication_from_image env (initial_state "" "image" Option.none)).error =
      some "Chybí obrázek pro zpracování" ∧
    (run_medication_workflow env (initial_state "" "image" Option.none)).error =
      some "Chyba při vyhledávání v databázi: NoneType object has no attribute get" ∧
    (run_medication_workflow env (initial_state "" "image" Option.none)).disclaimer =
      fallback_disclaimer ∧
    (run_medication_workflow env (initial_state "" "image" Option.none)).medication_info =
      Option.none ∧
    (run_medication_workflow env (initial_state "" "image" Option.none)).safety_warnings = [] ∧
    image_query env "" = image_query_error_response := by
  obtain ⟨vi, si, vis, rpc, llmf⟩ := env
  simp only at h
  subst h
  exact ⟨by rfl, by rfl, by rfl, by rfl, by rfl, by rfl⟩

/-- C1 witness: the amended behaviour at a concrete environment. -/
theorem c1_error_does_not_halt_pipeline_witness :
    (extract_medication_from_image envEmpty (initial_state "" "image" Option.none)).error =
      some "Chybí obrázek pro zpracování" ∧
    (run_medication_workflow envEmpty (initial_state "" "image" Option.none)).error =
      some "Chyba při vyhledávání v databázi: NoneType object has no attribute get" ∧
    (run_medication_workflow envEmpty (initial_state "" "image" Option.none)).disclaimer =
      fallback_disclaimer ∧
    (run_medication_workflow envEmpty (initial_state "" "image" Option.none)).medication_info =
      Option.none ∧
    (run_medication_workflow envEmpty (initial_state "" "image" Option.none)).safety_warnings = [] ∧
    image_query envEmpty "" = image_query_error_response :=
  c1_error_does_not_halt_pipeline envEmpty rfl

/-- C4: extraction keeps exactly the rows whose mapped `name` field is
present (non-null, non-blank after trim) and that have at least one of
`active_ingredient` / `atc_code` present; every other row is dropped, and
the survivors become canonical records in row order. -/
theorem c4_extraction_keeps_exactly_valid_rows (df : DataFrame) :
    extract_medication_info df =
      df.rows.filterMap (fun row =>
        if rowKeptSpec (actualMapping df.cols) row then
          some (toMedicationInfo (medData (actualMapping df.cols) row))
        else Option.none) := by
  have main : ∀ (am : List (String × String)) (rows : List Row) (acc : List MedicationInfo),
      rows.foldl (fun acc row =>
        if medData am row "name" = Option.none then acc
        else if medData am row "active_ingredient" = Option.none ∧
            medData am row "atc_code" = Option.none then acc
        else acc ++ [toMedicationInfo (medData am row)]) acc
      = acc ++ rows.filterMap (fun row =>
          if rowKeptSpec am row then some (toMedicationInfo (medData am row)) else Option.none) := by
    intro am rows
    induction rows with
    | nil => intro acc; simp
    | cons r rs ih =>
        intro acc
        rw [List.foldl_cons, List.filterMap_cons]
        by_cases h1 : medData am r "name" = Option.none
        · have hk : rowKeptSpec am r = false := by
            simp [rowKeptSpec, h1]
          simp only [h1, if_true, hk, Bool.false_eq_true, if_false]
          exact ih acc
        · by_cases h2 : medData am r "active_ingredient" = Option.none ∧
              medData am r "atc_code" = Option.none
          · have hk : rowKeptSpec am r = false := by
              simp [rowKeptSpec, h2.1, h2.2]
            simp only [h1, if_false, h2, if_true, hk, Bool.false_eq_true]
            exact ih acc
          · have hk : rowKeptSpec am r = true := by
              rw [Decidable.not_and_iff_or_not] at h2
              simp only [rowKeptSpec, Bool.and_eq_true, Bool.or_eq_true,
                Option.isSome_iff_ne_none]
              exact ⟨h1, by tauto⟩
            simp only [h1, if_false, h2, hk, if_true]
            rw [ih (acc ++ [toMedicationInfo (medData am r)])]
            simp
  unfold extract_medication_info
  simpa using main (actualMapping df.cols) df.rows []

/-- Ordering of the confidence levels, for stating monotonicity. -/
def confidenceRank (c : String) : Nat :=
  if c = "high" then 2 else if c = "medium" then 1 else 0

/-- C5: the confidence heuristic is the stated deterministic function —
trimmed answers under 50 characters give low; with length ≥ 50, zero sources
give low and a single source gives medium; with length ≥ 50 and at least two
sources the result depends only on the number of distinct domain-keyword
hits in the lowercased answer (≥ 4 high, ≥ 2 medium, else low), hence is
monotonic in that count and independent of every other input. -/
theorem c5_confidence_heuristic (r r2 : String) (s s2 : List PyDict) :
    ((pyStrip r).length < 50 → assess_response_confidence r s = "low") ∧
    (50 ≤ (pyStrip r).length → s = [] → assess_response_confidence r s = "low") ∧
    (50 ≤ (pyStrip r).length → s.length = 1 → assess_response_confidence r s = "medium") ∧
    (50 ≤ (pyStrip r).length → 2 ≤ s.length →
      assess_response_confidence r s =
        (if foundIndicators r ≥ 4 then "high"
         else if foundIndicators r ≥ 2 then "medium" else "low")) ∧
    (50 ≤ (pyStrip r).length → 50 ≤ (pyStrip r2).length → 2 ≤ s.length → 2 ≤ s2.length →
      (foundIndicators r = foundIndicators r2 →
        assess_response_confidence r s = assess_response_confidence r2 s2) ∧
      (foundIndicators r ≤ foundIndicators r2 →
        confidenceRank (assess_response_confidence r s) ≤
          confidenceRank (assess_response_confidence r2 s2))) := by
  have hnotempty : ∀ (l : List PyDict), 2 ≤ l.length → l.isEmpty = false := by
    intro l hl
    cases l with
    | nil => simp at hl
    | cons a t => rfl
  have hmain : ∀ (r : String) (s : List PyDict), 50 ≤ (pyStrip r).length → 2 ≤ s.length →
      assess_response_confidence r s =
        (if foundIndicators r ≥ 4 then "high"
         else if foundIndicators r ≥ 2 then "medium" else "low") := by
    intro r s h50 hs
    unfold assess_response_confidence
    rw [if_neg (by omega), hnotempty s hs]
    simp only [Bool.false_eq_true, if_false]
    rw [if_neg (by omega)]
  have hrank : ∀ m n : Nat, m ≤ n →
      confidenceRank (if m ≥ 4 then "high" else if m ≥ 2 then "medium" else "low") ≤
        confidenceRank (if n ≥ 4 then "high" else if n ≥ 2 then "medium" else "low") := by
    intro m n hmn
    by_cases h4 : m ≥ 4
    · rw [if_pos h4, if_pos (by omega : n ≥ 4)]
    · rw [if_neg h4]
      by_cases h2 : m ≥ 2
      · rw [if_pos h2]
        by_cases h4n : n ≥ 4
        · rw [if_pos h4n]; decide
        · rw [if_neg h4n, if_pos (by omega : n ≥ 2)]
      · rw [if_neg h2]
        have : confidenceRank "low" = 0 := by decide
        rw [this]
        exact Nat.zero_le _
  refine ⟨?_, ?_, ?_, hmain r s, ?_⟩
  · intro h
    unfold assess_response_confidence
    rw [if_pos h]
  · intro h50 hse
    subst hse
    unfold assess_response_confidence
    rw [if_neg (by omega)]
    rfl
  · intro h50 hone
    unfold assess_response_confidence
    rw [if_neg (by omega)]
    have hne : s.isEmpty = false := by
      cases s with
      | nil => simp at hone
      | cons a t => rfl
    rw [hne]
    simp only [Bool.false_eq_true, if_false]
    rw [if_pos (by omega)]
  · intro h50 h50b hs hs2
    constructor
    · intro heq
      rw [hmain r s h50 hs, hmain r2 s2 h50b hs2, heq]
    · intro hle
      rw [hmain r s h50 hs, hmain r2 s2 h50b hs2]
      exact hrank _ _ hle

/-- C5 witness: a 79-character answer with four distinct keyword hits and
two sources is graded high by the heuristic. -/
theorem c5_confidence_heuristic_witness :
    assess_response_confidence
      "Paralen obsahuje účinnou látku paracetamol, síla 500 mg, dávkování 1-2 tablety."
      [paralenMetadata, paralenMetadata] = "high" := by
  have h := (c5_confidence_heuristic
    "Paralen obsahuje účinnou látku paracetamol, síla 500 mg, dávkování 1-2 tablety."
    "Paralen obsahuje účinnou látku paracetamol, síla 500 mg, dávkování 1-2 tablety."
    [paralenMetadata, paralenMetadata] [paralenMetadata, paralenMetadata]).2.2.2.1
    (by decide) (by decide)
  rw [h]
  decide

/-- Updating one key leaves every other key's binding unchanged. -/
theorem dictGet_dictSet_ne (d : PyDict) (k k2 : String) (v : PyVal) (h : k2 ≠ k) :
    dictGet (dictSet d k2 v) k = dictGet d k := by
  induction d with
  | nil =>
      simp only [dictSet, dictGet]
      rw [if_neg h]
  | cons p rest ih =>
      obtain ⟨k0, v0⟩ := p
      simp only [dictSet, dictGet]
      by_cases hp : k0 = k2
      · rw [if_pos hp]
        simp only [dictGet]
        rw [if_neg (hp ▸ h), if_neg (hp ▸ h)]
      · rw [if_neg hp]
        simp only [dictGet]
        by_cases hk : k0 = k
        · rw [if_pos hk, if_pos hk]
        · rw [if_neg hk, if_neg hk]
          exact ih

/-- The enrichment fold never touches a key whose current value is a
number (present and not the placeholder string). -/
theorem enrich_preserves_num_entry (key : String) (c : ℚ) :
    ∀ (metadata d : PyDict), dictGet d key = some (.num c) →
      dictGet (enrichAbsentOrPlaceholder d metadata) key = some (.num c) := by
  intro metadata
  induction metadata with
  | nil => intro d h; exact h
  | cons kv rest ih =>
      intro d h
      unfold enrichAbsentOrPlaceholder at ih ⊢
      rw [List.foldl_cons]
      apply ih
      by_cases hk : kv.1 = key
      · rw [hk, h]
        simp [isNotVisible, h, hk]
      · split
        · rw [dictGet_dictSet_ne d key kv.1 kv.2 hk]
          exact h
        · exact h

/-- C6: the quality-adjustment step keeps a [0,1] confidence score inside
[0,1] (penalties are floored at 0 and the two-decimal rounding cannot leave
the interval), and the store-validation step never changes — in particular
never increases — the numeric `confidence_score` entry: it only backfills
absent/placeholder fields and sets `sukl_matches`/`validated`/`warning`. -/
theorem c6_confidence_bounded_and_never_raised
    (r : RawVision) (env : Env) (d d2 : PyDict) (c : ℚ) :
    (0 ≤ r.confidence_score → r.confidence_score ≤ 1 →
      0 ≤ (validate_recognition_quality r).confidence_score ∧
      (validate_recognition_quality r).confidence_score ≤ 1) ∧
    (dictGet d "confidence_score" = some (.num c) →
      validate_medication_info env d = Except.ok d2 →
      dictGet d2 "confidence_score" = some (.num c)) := by
  constructor
  · intro h0 h1
    have e1 : (mkRat 3 10 : ℚ) = 3/10 := by rw [Rat.mkRat_eq_div]; norm_num
    have e2 : (mkRat 1 5 : ℚ) = 1/5 := by rw [Rat.mkRat_eq_div]; norm_num
    have hA : (0:ℚ) ⊔ (r.confidence_score - 3/10) ≤ 1 :=
      sup_le (by norm_num) (by linarith)
    unfold validate_recognition_quality
    simp only [e1, e2]
    apply round2_bounds
    all_goals split_ifs <;>
      first
        | exact le_sup_left
        | exact h0
        | exact h1
        | exact hA
        | exact sup_le (by norm_num) (by linarith)
  · intro hc hok
    unfold validate_medication_info at hok
    split at hok
    · cases hok
      exact hc
    · split at hok
      · cases hok
      · split at hok
        · split at hok
          · cases hok
            rw [dictGet_dictSet_ne _ _ _ _ (by decide),
                dictGet_dictSet_ne _ _ _ _ (by decide)]
            exact hc
          · cases hok
            apply enrich_preserves_num_entry
            rw [dictGet_dictSet_ne _ _ _ _ (by decide),
                dictGet_dictSet_ne _ _ _ _ (by decide)]
            exact hc
        · cases hok
        · cases hok

/-- A parsed vision response with both critical fields unreadable and a 0.5
raw confidence. -/
def rawHalfVision : RawVision :=
  { name := "", active_ingredient := "", confidence_score := mkRat 1 2, extracted_text := "" }

/-- What `validate_medication_info` returns on `visionDict vrParalen` when
the store has no match: `validated`/`warning` rewritten in place, the
numeric confidence untouched. -/
def c6ResultDict : PyDict :=
  [("name", .str "PARALEN 500MG"),
   ("active_ingredient", .str "není viditelné"),
   ("strength", .str "není viditelné"),
   ("form", .str "není viditelné"),
   ("manufacturer", .str "není viditelné"),
   ("registration_number", .str "není viditelné"),
   ("confidence_score", .num (mkRat 17 20)),
   ("warning", .str "Lék nebyl nalezen v databázi SÚKL. Ověřte správnost informací."),
   ("validated", .bool false),
   ("sukl_matches", PyVal.none)]

/-- C6 witness: the bounds hold at raw confidence 0.5 with both penalty
branches taken, and the store validation of the PARALEN vision dict leaves
its 0.85 confidence entry untouched. -/
theorem c6_confidence_bounded_and_never_raised_witness :
    (0 ≤ (validate_recognition_quality rawHalfVision).confidence_score ∧
      (validate_recognition_quality rawHalfVision).confidence_score ≤ 1) ∧
    dictGet c6ResultDict "confidence_score" = some (.num (mkRat 17 20)) := by
  have h := c6_confidence_bounded_and_never_raised rawHalfVision envEmpty
    (visionDict vrParalen) c6ResultDict (mkRat 17 20)
  exact ⟨h.1 (by decide) (by decide), h.2 (by rfl) (by rfl)⟩

/-- The C10 input: the post-extraction PARALEN state carrying the
vision-extraction warning in its safety warnings. -/
def c10State : MedicationState :=
  { query := "", query_type := "image", image_data := some "/9j/abc",
    extracted_text := some "Název: PARALEN 500MG",
    medication_info := some (visionDict vrParalen),
    safety_warnings := ["Nepodařilo se rozpoznat název léku"],
    disclaimer := "", confidence_score := mkRat 17 20, sources := [],
    error := Option.none }

/-- C10: whenever AddDisclaimers completes its warning computation, it
ASSIGNS the freshly built list — derived only from its own substring checks
on the medication dict — so the final warnings all come from the fixed
four-message set, and any warning an earlier stage appended (such as the
vision-extraction warning) is gone from the final state. -/
theorem c10_add_disclaimers_discards_earlier_warnings
    (s : MedicationState) (mi : PyDict) (ws : List String)
    (hmi : s.medication_info = some mi)
    (hok : computeSafetyWarnings mi = Except.ok ws) :
    (add_safety_disclaimers s).safety_warnings = ws ∧
    (∀ w ∈ ws, w ∈ fixed_safety_warnings) ∧
    (∀ w ∈ s.safety_warnings, w ∉ fixed_safety_warnings →
      w ∉ (add_safety_disclaimers s).safety_warnings) := by
  have h1 : (add_safety_disclaimers s).safety_warnings = ws := by
    unfold add_safety_disclaimers
    rw [hmi]
    simp only [hok]
  have h2 : ∀ w ∈ ws, w ∈ fixed_safety_warnings := by
    unfold computeSafetyWarnings at hok
    split at hok
    · cases hok
    · split at hok
      · cases hok
      · cases hok
        intro w hw
        simp only [List.mem_append] at hw
        rcases hw with ((hw | hw) | hw) | hw <;>
          · split at hw <;>
              simp_all [fixed_safety_warnings]
  refine ⟨h1, h2, ?_⟩
  intro w _ hnf hcontra
  rw [h1] at hcontra
  exact hnf (h2 w hcontra)

/-- C10 witness: the vision-extraction warning present before AddDisclaimers
is absent afterwards (here the fresh list is empty). -/
theorem c10_add_disclaimers_discards_earlier_warnings_witness :
    (add_safety_disclaimers c10State).safety_warnings = [] ∧
    "Nepodařilo se rozpoznat název léku" ∉ (add_safety_disclaimers c10State).safety_warnings := by
  have h := c10_add_disclaimers_discards_earlier_warnings c10State (visionDict vrParalen) []
    (by rfl) (by rfl)
  exact ⟨h.1, h.2.2 _ (by decide) (by decide)⟩
